import Mathlib

/-!
Verification of the jujushell charm (`src/reactive/juju-shell.py`).

The charm reacts to lifecycle hooks (install / start / config-changed / stop)
and a one-time LXD bootstrap.  All external collaborators (subprocess
execution, hook environment, resource provider) are modelled by a `World`
record; each Python function is embedded as a Lean function from the world
and the current state to a result together with the trace of externally
visible actions it performed.
-/

set_option maxHeartbeats 1000000

namespace Jujushell

/-- Python `str.isspace` characters relevant to `str.split()` with no
arguments: space, tab, newline, carriage return, vertical tab, form feed. -/
def pyIsSpace (c : Char) : Bool :=
  c = ' ' || c = '\t' || c = '\n' || c = '\r' || c = '\x0b' || c = '\x0c'

/-- Helper for `pySplit`: walk the characters accumulating the current
word (reversed); whitespace ends the current word, and empty words are
dropped. -/
def pySplitAux : List Char → List Char → List String
  | [], acc => if acc = [] then [] else [String.mk acc.reverse]
  | c :: cs, acc =>
      if pyIsSpace c then
        if acc = [] then pySplitAux cs []
        else String.mk acc.reverse :: pySplitAux cs []
      else pySplitAux cs (c :: acc)

/-- Python `str.split()` with no arguments: split on runs of whitespace,
discarding empty fragments. -/
def pySplit (s : String) : List String :=
  pySplitAux s.toList []

/-- Characters `pipes.quote` considers safe (its `_safechars` set). -/
def shellSafeChar (c : Char) : Bool :=
  c.isAlpha || c.isDigit || "@%_-+=:,./".toList.contains c

/-- Embedding of `pipes.quote`: return the string unchanged when all characters are safe
(and the string is non-empty); otherwise wrap it in single quotes, escaping
embedded single quotes. -/
def shellQuote (s : String) : String :=
  if s.toList.all shellSafeChar then
    if s = "" then "\x27\x27" else s
  else
    "\x27" ++ String.join (s.toList.map fun c =>
      if c = '\x27' then "\x27\x22\x27\x22\x27" else String.singleton c) ++ "\x27"

/-- Embedding of `' '.join(map(pipes.quote, cmd))` as computed in `call`. -/
def cmdlineOf (cmd : List String) : String :=
  " ".intercalate (cmd.map shellQuote)

/-- Outcome of attempting to spawn a subprocess: either `Popen` raises
`OSError` (executable missing), or the process runs and exits with a return
code, captured stdout and captured stderr. -/
inductive ProcResult where
  | launchFailure (err : String)
  | exited (retcode : Int) (output error : String)
deriving DecidableEq, Repr

/-- The Python exceptions the charm can raise, by raise site:
`commandNotFound` and `commandFailed` are the two `OSError`s of `call`,
`valueError` is `build_config`'s missing-addresses `ValueError`,
`agentConfError` stands for a failure reading/parsing `agent.conf` in
`get_juju_cert`, and `resourceNotFound` is `save_resource`'s `OSError`. -/
inductive PyErr where
  | commandNotFound (command : String) (err : String)
  | commandFailed (cmdline : String) (retcode : Int) (combined : String)
  | valueError (msg : String)
  | agentConfError
  | resourceNotFound (name : String)
deriving DecidableEq, Repr

/-- Log entries emitted by `call` via `hookenv.log`. -/
inductive LogEntry where
  | running (cmdline : String)
  | failed (cmdline : String) (retcode : Int) (combined : String)
  | succeeded (cmdline : String) (output : String)
deriving DecidableEq, Repr

/-- The external collaborators: subprocess behaviour keyed by the argument
vector, the `JUJU_API_ADDRESSES` environment variable, the `cacert` field
parsed out of `agent.conf` (none when the file is missing or malformed), and
`hookenv.resource_get`. -/
structure World where
  exec : List String → ProcResult
  apiAddrs : Option String
  cacert : Option String
  resources : String → Option String

/-- The charm configuration as seen through `hookenv.config()`: the current
values of the `port` and `log-level` options and the previously saved value
of `port` (`cfg.previous`); `cfg.changed` is inequality of the two. -/
structure Config where
  port : Int
  prevPort : Int
  logLevel : String
deriving DecidableEq, Repr

/-- The config.yaml document `build_config` assembles. -/
structure ConfigData where
  jujuAddrs : List String
  jujuCert : String
  imageName : String
  logLevel : String
  port : Int
deriving DecidableEq, Repr

/-- Externally visible actions a reaction can perform. -/
inductive Action where
  | closePort (p : Int)
  | openPort (p : Int)
  | writeConfig (d : ConfigData)
  | run (cmd : List String)
  | sleep (seconds : Nat)
  | fetchResource (name : String)
  | chmod (path : String) (mode : Nat)
  | render (template target : String)
deriving DecidableEq, Repr

/-- The charms.reactive state flags the charm sets and removes. -/
structure Flags where
  installed : Bool
  started : Bool
  stopped : Bool
deriving DecidableEq, Repr

/-- Module constant `IMAGE_NAME`. -/
def IMAGE_NAME : String := "termserver"

/-- Module constant `LXC`. -/
def LXC : String := "/snap/bin/lxc"

/-- Module constant `_LXD_INIT_COMMAND` (the preseeded `lxd init` shell
command; under `shell=True` the whole script is the single argument). -/
def LXD_INIT_COMMAND : String :=
  "\ncat <<EOF | /snap/bin/lxd init --preseed\nnetworks:\n- name: jujushellbr0\n  type: bridge\n  config:\n    ipv4.address: auto\n    ipv6.address: none\nstorage_pools:\n- name: data\n  driver: zfs\nprofiles:\n- name: default\n  devices:\n    root:\n      path: /\n      pool: data\n      type: disk\n    eth0:\n      name: eth0\n      nictype: bridged\n      parent: jujushellbr0\n      type: nic\nEOF\n"

/-- Embedding of `call(command, *args)`: spawn the subprocess; if `Popen` raises, raise
the not-found `OSError`; otherwise on a non-zero return code raise the
failure `OSError` carrying the joined command line, the return code and the
concatenated output, and on a zero return code return normally, logging the
captured output. -/
def call (w : World) (command : String) (args : List String) :
    Except PyErr Unit × List LogEntry :=
  let cmd := command :: args
  let cmdline := cmdlineOf cmd
  match w.exec cmd with
  | .launchFailure err =>
      (.error (.commandNotFound command err), [.running cmdline])
  | .exited retcode output error =>
      if retcode ≠ 0 then
        (.error (.commandFailed cmdline retcode (output ++ error)),
         [.running cmdline, .failed cmdline retcode (output ++ error)])
      else
        (.ok (), [.running cmdline, .succeeded cmdline output])

/-- Projection of `call` to its result alone, for use by the reactions. -/
def callE (w : World) (command : String) (args : List String) : Except PyErr Unit :=
  (call w command args).1

/-- The key/value form of the document `yaml.safe_dump` writes for a
`ConfigData` (keys emitted sorted, as `safe_dump` does by default). -/
def ConfigData.toDoc (d : ConfigData) : List (String × (String ⊕ Int ⊕ List String)) :=
  [("image-name", .inl d.imageName),
   ("juju-addrs", .inr (.inr d.jujuAddrs)),
   ("juju-cert", .inl d.jujuCert),
   ("log-level", .inl d.logLevel),
   ("port", .inr (.inl d.port))]

/-- Parse a key/value document back into a `ConfigData` (the `safe_load`
side of the round trip). -/
def parseDoc (doc : List (String × (String ⊕ Int ⊕ List String))) :
    Option ConfigData :=
  match List.lookup "juju-addrs" doc, List.lookup "juju-cert" doc,
        List.lookup "image-name" doc, List.lookup "log-level" doc,
        List.lookup "port" doc with
  | some (.inr (.inr addrs)), some (.inl cert), some (.inl img),
    some (.inl lvl), some (.inr (.inl p)) =>
      some ⟨addrs, cert, img, lvl, p⟩
  | _, _, _, _, _ => none

/-- Embedding of `build_config()`: read `JUJU_API_ADDRESSES` (raise `ValueError` when
absent), extract the certificate from `agent.conf`, assemble the document
and write it to `files/config.yaml`.  The third component is the config
file content after the call (unchanged when an exception is raised before
the write). -/
def build_config (w : World) (cfg : Config) (file : Option ConfigData) :
    Except PyErr Unit × List Action × Option ConfigData :=
  match w.apiAddrs with
  | none => (.error (.valueError "could not find API addresses"), [], file)
  | some api_addrs =>
      match w.cacert with
      | none => (.error .agentConfError, [], file)
      | some cert =>
          let data : ConfigData :=
            ⟨pySplit api_addrs, cert, IMAGE_NAME, cfg.logLevel, cfg.port⟩
          (.ok (), [.writeConfig data], some data)

/-- The port actions `manage_ports` performs before calling `build_config`:
close the previous port when the `port` option changed, then open the
current port. -/
def portOps (cfg : Config) : List Action :=
  (if cfg.prevPort ≠ cfg.port then [Action.closePort cfg.prevPort] else [])
    ++ [Action.openPort cfg.port]

/-- Embedding of `manage_ports()`: close the previous port if the option changed, open
the current port, then build the config. -/
def manage_ports (w : World) (cfg : Config) (file : Option ConfigData) :
    Except PyErr Unit × List Action × Option ConfigData :=
  match build_config w cfg file with
  | (r, acts, file') => (r, portOps cfg ++ acts, file')

deriving instance DecidableEq for Except

/-- Result of one lifecycle reaction: the Python result (normal return or
uncaught exception), the trace of actions performed during the reaction,
and the state flags and config file content after it. -/
structure RunResult where
  result : Except PyErr Unit
  trace : List Action
  flags : Flags
  file : Option ConfigData
deriving DecidableEq, Repr

/-- The `systemctl restart jujushell.service` argument vector. -/
def restartCmd : List String := ["systemctl", "restart", "jujushell.service"]

/-- Embedding of `restart()`: `manage_ports` (ports then config), then
`systemctl restart`, then set `jujushell.started` and remove
`jujushell.stopped`.  An exception anywhere aborts the rest and leaves the
flags untouched. -/
def restart (w : World) (cfg : Config) (flags : Flags) (file : Option ConfigData) :
    RunResult :=
  match manage_ports w cfg file with
  | (.error e, acts, file') => ⟨.error e, acts, flags, file'⟩
  | (.ok _, acts, file') =>
      match callE w "systemctl" ["restart", "jujushell.service"] with
      | .error e => ⟨.error e, acts ++ [.run restartCmd], flags, file'⟩
      | .ok _ =>
          ⟨.ok (), acts ++ [.run restartCmd],
           { flags with started := true, stopped := false }, file'⟩

/-- Embedding of `@hook('start') def start(): restart()`. -/
def start (w : World) (cfg : Config) (flags : Flags) (file : Option ConfigData) :
    RunResult :=
  restart w cfg flags file

/-- Embedding of `@hook('config-changed') def config_changed(): restart()`. -/
def config_changed (w : World) (cfg : Config) (flags : Flags)
    (file : Option ConfigData) : RunResult :=
  restart w cfg flags file

/-- Embedding of `@hook('stop') def stop()`: `systemctl stop`, then remove
`jujushell.started` and set `jujushell.stopped`. -/
def stop (w : World) (flags : Flags) (file : Option ConfigData) : RunResult :=
  match callE w "systemctl" ["stop", "jujushell.service"] with
  | .error e => ⟨.error e, [.run ["systemctl", "stop", "jujushell.service"]], flags, file⟩
  | .ok _ =>
      ⟨.ok (), [.run ["systemctl", "stop", "jujushell.service"]],
       { flags with started := false, stopped := true }, file⟩

/-- Embedding of `@hook('install') def install_service()`: render the systemd unit,
fetch the `jujushell` binary resource and make it executable, build the
config, enable the unit and reload systemd, then set `jujushell.installed`.
Failures propagate and leave the flags untouched. -/
def install_service (w : World) (cfg : Config) (flags : Flags)
    (file : Option ConfigData) : RunResult :=
  let t0 := [Action.render "jujushell.service" "/usr/lib/systemd/user/jujushell.service"]
  match w.resources "jujushell" with
  | none =>
      ⟨.error (.resourceNotFound "jujushell"), t0 ++ [.fetchResource "jujushell"],
       flags, file⟩
  | some _ =>
      let t1 := t0 ++ [Action.fetchResource "jujushell", Action.chmod "files/jujushell" 509]
      match build_config w cfg file with
      | (.error e, acts, file') => ⟨.error e, t1 ++ acts, flags, file'⟩
      | (.ok _, acts, file') =>
          let enableCmd := ["systemctl", "enable", "/usr/lib/systemd/user/jujushell.service"]
          match callE w "systemctl" ["enable", "/usr/lib/systemd/user/jujushell.service"] with
          | .error e => ⟨.error e, t1 ++ acts ++ [.run enableCmd], flags, file'⟩
          | .ok _ =>
              match callE w "systemctl" ["daemon-reload"] with
              | .error e =>
                  ⟨.error e,
                   t1 ++ acts ++ [.run enableCmd, .run ["systemctl", "daemon-reload"]],
                   flags, file'⟩
              | .ok _ =>
                  ⟨.ok (),
                   t1 ++ acts ++ [.run enableCmd, .run ["systemctl", "daemon-reload"]],
                   { flags with installed := true }, file'⟩

/-- The `lxc network show jujushellbr0` probe argument vector. -/
def netProbeCmd : List String := [LXC, "network", "show", "jujushellbr0"]

/-- The `lxc image show termserver` probe argument vector. -/
def imgProbeCmd : List String := [LXC, "image", "show", "termserver"]

/-- The `lxc image import` argument vector. -/
def imgImportCmd : List String :=
  [LXC, "image", "import", "/tmp/termserver.tar.gz", "--alias", "termserver"]

/-- Embedding of the `setup_lxd()` body: add the user to the lxd group; probe the bridge
with `lxc network show` and, only when that probe raises `OSError`
(caught locally), sleep and run the preseeded `lxd init`; probe the image
with `lxc image show` and, only when that probe raises `OSError` (caught
locally), fetch the `termserver` resource and import it.  Failures of the
setup actions themselves propagate. -/
def setup_lxd (w : World) : Except PyErr Unit × List Action :=
  let tAdd := [Action.run ["adduser", "ubuntu", "lxd"]]
  match callE w "adduser" ["ubuntu", "lxd"] with
  | .error e => (.error e, tAdd)
  | .ok _ =>
      let tNetProbe := tAdd ++ [Action.run netProbeCmd]
      let netPhase : Except PyErr Unit × List Action :=
        match callE w LXC ["network", "show", "jujushellbr0"] with
        | .error _ =>
            (callE w LXD_INIT_COMMAND [],
             tNetProbe ++ [Action.sleep 10, Action.run [LXD_INIT_COMMAND]])
        | .ok _ => (.ok (), tNetProbe)
      match netPhase with
      | (.error e, t) => (.error e, t)
      | (.ok _, t) =>
          let tImgProbe := t ++ [Action.run imgProbeCmd]
          match callE w LXC ["image", "show", "termserver"] with
          | .error _ =>
              match w.resources "termserver" with
              | none =>
                  (.error (.resourceNotFound "termserver"),
                   tImgProbe ++ [Action.fetchResource "termserver"])
              | some _ =>
                  (callE w LXC ["image", "import", "/tmp/termserver.tar.gz",
                                "--alias", "termserver"],
                   tImgProbe ++ [Action.fetchResource "termserver",
                                 Action.run imgImportCmd])
          | .ok _ => (.ok (), tImgProbe)

/-- The `@only_once` guard around `setup_lxd`: when the guard flag is
already set the handler body does not run at all; otherwise it runs and the
flag is set once it completes without raising. -/
def setup_lxd_once (w : World) (guardSet : Bool) :
    (Except PyErr Unit × List Action) × Bool :=
  if guardSet then ((.ok (), []), true)
  else
    let r := setup_lxd w
    (r, match r.1 with | .ok _ => true | .error _ => false)

/-- The image phase of `setup_lxd` (lines probing `lxc image show` and
importing the image), as a function of the trace accumulated so far; used
to state lemmas about `setup_lxd` uniformly over both network-phase
outcomes. -/
def imagePhase (w : World) (t : List Action) : Except PyErr Unit × List Action :=
  let tImgProbe := t ++ [Action.run imgProbeCmd]
  match callE w LXC ["image", "show", "termserver"] with
  | .error _ =>
      match w.resources "termserver" with
      | none =>
          (.error (.resourceNotFound "termserver"),
           tImgProbe ++ [Action.fetchResource "termserver"])
      | some _ =>
          (callE w LXC ["image", "import", "/tmp/termserver.tar.gz",
                        "--alias", "termserver"],
           tImgProbe ++ [Action.fetchResource "termserver", Action.run imgImportCmd])
  | .ok _ => (.ok (), tImgProbe)

/-- The lifecycle events the dispatch framework can deliver. -/
inductive Event where
  | install
  | start
  | configChanged
  | stop
  | lxdInstalled
deriving DecidableEq, Repr

/-- The persistent state the framework carries between reactions. -/
structure Sys where
  flags : Flags
  file : Option ConfigData
  lxdDone : Bool
deriving DecidableEq, Repr

/-- Dispatch one event against the persistent state. -/
def react (w : World) (cfg : Config) (e : Event) (s : Sys) : Sys :=
  match e with
  | .install =>
      let r := install_service w cfg s.flags s.file
      ⟨r.flags, r.file, s.lxdDone⟩
  | .start =>
      let r := start w cfg s.flags s.file
      ⟨r.flags, r.file, s.lxdDone⟩
  | .configChanged =>
      let r := config_changed w cfg s.flags s.file
      ⟨r.flags, r.file, s.lxdDone⟩
  | .stop =>
      let r := stop w s.flags s.file
      ⟨r.flags, r.file, s.lxdDone⟩
  | .lxdInstalled =>
      let r := setup_lxd_once w s.lxdDone
      ⟨s.flags, s.file, r.2⟩

/-- Run a sequence of events, each with its own world and configuration. -/
def runSeq (steps : List (Event × World × Config)) (s : Sys) : Sys :=
  steps.foldl (fun s step => react step.2.1 step.2.2 step.1 s) s

/-- Exactly one of the `started` / `stopped` flags holds. -/
def exactlyOne (f : Flags) : Prop := f.started ≠ f.stopped

instance (f : Flags) : Decidable (exactlyOne f) := by
  unfold exactlyOne; infer_instance

/-- Whether an action is a port action (`hookenv.close_port` /
`hookenv.open_port`). -/
def isPortAction : Action → Bool
  | .closePort _ => true
  | .openPort _ => true
  | _ => false

/-! ## Claims -/

/-- C1:  For every prior/current port pair where the ports differ,
`restart()` (via `manage_ports`) closes exactly the previous port and opens
exactly the current one; where they are equal, no close is issued and the
current port is opened. -/
theorem C1_restart_port_transitions (w : World) (cfg : Config) (flags : Flags)
    (file : Option ConfigData) :
    (restart w cfg flags file).trace.filter isPortAction
      = if cfg.prevPort ≠ cfg.port
        then [Action.closePort cfg.prevPort, Action.openPort cfg.port]
        else [Action.openPort cfg.port] := by
  have hports : (portOps cfg).filter isPortAction
      = if cfg.prevPort ≠ cfg.port
        then [Action.closePort cfg.prevPort, Action.openPort cfg.port]
        else [Action.openPort cfg.port] := by
    by_cases h : cfg.prevPort ≠ cfg.port <;>
      simp [portOps, isPortAction, h, List.filter]
  unfold restart manage_ports build_config
  cases w.apiAddrs with
  | none => simpa [List.filter_append] using hports
  | some addrs =>
      cases w.cacert with
      | none => simpa [List.filter_append] using hports
      | some cert =>
          cases callE w "systemctl" ["restart", "jujushell.service"] with
          | error e =>
              simpa [List.filter_append, List.filter, isPortAction] using hports
          | ok _ =>
              simpa [List.filter_append, List.filter, isPortAction] using hports

/-- C2: `call()`: on a zero exit it returns normally with the captured
output available (logged); on a non-zero exit it raises the failure error
carrying the joined command line, the exact exit code and the combined
captured output; when the executable cannot be launched it raises the
distinct not-found error. -/
theorem C2_call_executor (w : World) (command : String) (args : List String) :
    (∀ out err, w.exec (command :: args) = .exited 0 out err →
        (call w command args).1 = .ok () ∧
        LogEntry.succeeded (cmdlineOf (command :: args)) out ∈ (call w command args).2) ∧
    (∀ rc out err, w.exec (command :: args) = .exited rc out err → rc ≠ 0 →
        (call w command args).1
          = .error (.commandFailed (cmdlineOf (command :: args)) rc (out ++ err))) ∧
    (∀ msg, w.exec (command :: args) = .launchFailure msg →
        (call w command args).1 = .error (.commandNotFound command msg)) := by
  refine ⟨fun out err h => ?_, fun rc out err h hrc => ?_, fun msg h => ?_⟩
  · simp [call, h]
  · simp only [call, h]
    rw [if_pos hrc]
  · simp [call, h]

/-- A world in which every command exits 0 with output `"out"`. -/
def wAllOk : World :=
  { exec := fun _ => .exited 0 "out" "",
    apiAddrs := some "1.2.3.4:17070 5.6.7.8:17070",
    cacert := some "PEMCERT",
    resources := fun _ => some "/path" }

/-- A world in which every command exits 3 and `JUJU_API_ADDRESSES` is
unset. -/
def wAllFail : World :=
  { exec := fun _ => .exited 3 "o" "e",
    apiAddrs := none,
    cacert := none,
    resources := fun _ => none }

/-- A world in which no executable can be launched. -/
def wMissing : World :=
  { exec := fun _ => .launchFailure "ENOENT",
    apiAddrs := none,
    cacert := none,
    resources := fun _ => none }

/-- Witness for C2 at concrete worlds. -/
theorem C2_call_executor_witness :
    ((call wAllOk "ls" ["-l"]).1 = .ok () ∧
      LogEntry.succeeded (cmdlineOf ["ls", "-l"]) "out" ∈ (call wAllOk "ls" ["-l"]).2) ∧
    (call wAllFail "ls" ["-l"]).1
      = .error (.commandFailed (cmdlineOf ["ls", "-l"]) 3 ("o" ++ "e")) ∧
    (call wMissing "ls" ["-l"]).1 = .error (.commandNotFound "ls" "ENOENT") :=
  ⟨(C2_call_executor wAllOk "ls" ["-l"]).1 "out" "" rfl,
   (C2_call_executor wAllFail "ls" ["-l"]).2.1 3 "o" "e" rfl (by decide),
   (C2_call_executor wMissing "ls" ["-l"]).2.2 "ENOENT" rfl⟩

/-- C3:  When `JUJU_API_ADDRESSES` is absent, `build_config()` raises a
`ValueError` and performs no write at all: no write action is emitted and
the persisted config file content is unchanged. -/
theorem C3_build_config_missing_addrs (w : World) (cfg : Config)
    (file : Option ConfigData) (h : w.apiAddrs = none) :
    (build_config w cfg file).1 = .error (.valueError "could not find API addresses") ∧
    (build_config w cfg file).2.1 = [] ∧
    (build_config w cfg file).2.2 = file := by
  unfold build_config
  rw [h]
  exact ⟨rfl, rfl, rfl⟩

/-- A sample previously persisted config document. -/
def d0 : ConfigData := ⟨["10.0.0.1:17070"], "OLDCERT", "termserver", "debug", 443⟩

/-- Witness for C3: with no addresses in the environment the old file
content survives. -/
theorem C3_build_config_missing_addrs_witness :
    wAllFail.apiAddrs = none ∧
    (build_config wAllFail ⟨8047, 8047, "info"⟩ (some d0)).1
      = .error (.valueError "could not find API addresses") ∧
    (build_config wAllFail ⟨8047, 8047, "info"⟩ (some d0)).2.1 = [] ∧
    (build_config wAllFail ⟨8047, 8047, "info"⟩ (some d0)).2.2 = some d0 :=
  ⟨rfl, C3_build_config_missing_addrs wAllFail ⟨8047, 8047, "info"⟩ (some d0) rfl⟩

/-- C4:  Whenever `build_config()` succeeds, the written document,
parsed back, is exactly the mapping of the whitespace-split addresses, the
extracted certificate, the fixed image name, and the configured log level
and port. -/
theorem C4_build_config_round_trip (w : World) (cfg : Config)
    (file : Option ConfigData) (addrs cert : String)
    (h1 : w.apiAddrs = some addrs) (h2 : w.cacert = some cert) :
    (build_config w cfg file).1 = .ok () ∧
    (build_config w cfg file).2.2
      = some ⟨pySplit addrs, cert, IMAGE_NAME, cfg.logLevel, cfg.port⟩ ∧
    parseDoc (ConfigData.toDoc ⟨pySplit addrs, cert, IMAGE_NAME, cfg.logLevel, cfg.port⟩)
      = some ⟨pySplit addrs, cert, IMAGE_NAME, cfg.logLevel, cfg.port⟩ := by
  unfold build_config
  rw [h1, h2]
  exact ⟨rfl, rfl, rfl⟩

/-- Witness for C4 at a concrete environment and configuration. -/
theorem C4_build_config_round_trip_witness :
    (build_config wAllOk ⟨8047, 443, "info"⟩ (some d0)).1 = .ok () ∧
    (build_config wAllOk ⟨8047, 443, "info"⟩ (some d0)).2.2
      = some ⟨pySplit "1.2.3.4:17070 5.6.7.8:17070", "PEMCERT", IMAGE_NAME, "info", 8047⟩ ∧
    parseDoc (ConfigData.toDoc
        ⟨pySplit "1.2.3.4:17070 5.6.7.8:17070", "PEMCERT", IMAGE_NAME, "info", 8047⟩)
      = some ⟨pySplit "1.2.3.4:17070 5.6.7.8:17070", "PEMCERT", IMAGE_NAME, "info", 8047⟩ :=
  C4_build_config_round_trip wAllOk ⟨8047, 443, "info"⟩ (some d0)
    "1.2.3.4:17070 5.6.7.8:17070" "PEMCERT" rfl rfl

/-- Lemma: `manage_ports` performs the port transition and then whatever
`build_config` does. -/
theorem manage_ports_eq (w : World) (cfg : Config) (file : Option ConfigData) :
    manage_ports w cfg file
      = ((build_config w cfg file).1,
         portOps cfg ++ (build_config w cfg file).2.1,
         (build_config w cfg file).2.2) := by
  unfold manage_ports
  rcases hb : build_config w cfg file with ⟨r, acts, f⟩
  rfl

/-- When `build_config` raises, it emits no action and keeps the file. -/
theorem build_config_error_shape (w : World) (cfg : Config)
    (file : Option ConfigData) (e : PyErr)
    (h : (build_config w cfg file).1 = .error e) :
    build_config w cfg file = (.error e, [], file) := by
  unfold build_config at h
  cases hw : w.apiAddrs with
  | none =>
      rw [hw] at h
      injection h with h1
      subst h1
      unfold build_config
      rw [hw]
  | some addrs =>
      cases hc : w.cacert with
      | none =>
          rw [hw, hc] at h
          injection h with h1
          subst h1
          unfold build_config
          rw [hw, hc]
      | some cert => rw [hw, hc] at h; simp at h

/-- When `build_config` returns normally, the environment provided
addresses and a certificate, and exactly the assembled document was
written. -/
theorem build_config_ok_shape (w : World) (cfg : Config)
    (file : Option ConfigData) (h : (build_config w cfg file).1 = .ok ()) :
    ∃ addrs cert, w.apiAddrs = some addrs ∧ w.cacert = some cert ∧
      build_config w cfg file
        = (.ok (),
           [Action.writeConfig ⟨pySplit addrs, cert, IMAGE_NAME, cfg.logLevel, cfg.port⟩],
           some ⟨pySplit addrs, cert, IMAGE_NAME, cfg.logLevel, cfg.port⟩) := by
  unfold build_config at h
  cases hw : w.apiAddrs with
  | none => rw [hw] at h; simp at h
  | some addrs =>
      cases hc : w.cacert with
      | none => rw [hw, hc] at h; simp at h
      | some cert =>
          refine ⟨addrs, cert, rfl, rfl, ?_⟩
          unfold build_config
          rw [hw, hc]

/-- Lemma: `restart` after a `build_config` failure: ports already transitioned,
nothing else happened. -/
theorem restart_eq_of_error (w : World) (cfg : Config) (flags : Flags)
    (file : Option ConfigData) (e : PyErr)
    (hb : build_config w cfg file = (.error e, [], file)) :
    restart w cfg flags file = ⟨.error e, portOps cfg, flags, file⟩ := by
  unfold restart
  rw [manage_ports_eq w cfg file, hb]
  simp

/-- Lemma: `restart` after a successful `build_config`, as a function of the
`systemctl restart` outcome. -/
theorem restart_eq_of_build_ok (w : World) (cfg : Config) (flags : Flags)
    (file : Option ConfigData) (d : ConfigData)
    (hb : build_config w cfg file = (.ok (), [Action.writeConfig d], some d)) :
    restart w cfg flags file
      = match callE w "systemctl" ["restart", "jujushell.service"] with
        | .error e =>
            ⟨.error e, portOps cfg ++ [Action.writeConfig d] ++ [Action.run restartCmd],
             flags, some d⟩
        | .ok _ =>
            ⟨.ok (), portOps cfg ++ [Action.writeConfig d] ++ [Action.run restartCmd],
             { flags with started := true, stopped := false }, some d⟩ := by
  unfold restart
  rw [manage_ports_eq w cfg file, hb]

/-- A successful `restart` run in full: config written, ports
transitioned, service restarted, flags flipped. -/
theorem restart_ok_shape (w : World) (cfg : Config) (flags : Flags)
    (file : Option ConfigData)
    (h : (restart w cfg flags file).result = .ok ()) :
    ∃ d, build_config w cfg file = (.ok (), [Action.writeConfig d], some d) ∧
      restart w cfg flags file
        = ⟨.ok (), portOps cfg ++ [Action.writeConfig d] ++ [Action.run restartCmd],
           { flags with started := true, stopped := false }, some d⟩ := by
  cases hbr : (build_config w cfg file).1 with
  | error e =>
      rw [restart_eq_of_error w cfg flags file e
        (build_config_error_shape w cfg file e hbr)] at h
      simp at h
  | ok u =>
      obtain ⟨addrs, cert, hw, hc, hb⟩ := build_config_ok_shape w cfg file hbr
      refine ⟨_, hb, ?_⟩
      have he := restart_eq_of_build_ok w cfg flags file _ hb
      rw [he] at h ⊢
      cases hcall : callE w "systemctl" ["restart", "jujushell.service"] with
      | error e => rw [hcall] at h; simp at h
      | ok v => rfl

/-- Lemma: `restart` either raises (leaving the flags untouched) or returns
normally having set `started` and cleared `stopped`. -/
theorem restart_shape (w : World) (cfg : Config) (flags : Flags)
    (file : Option ConfigData) :
    ((∃ e, (restart w cfg flags file).result = .error e) ∧
      (restart w cfg flags file).flags = flags) ∨
    ((restart w cfg flags file).result = .ok () ∧
      (restart w cfg flags file).flags
        = { flags with started := true, stopped := false }) := by
  unfold restart
  split
  · exact Or.inl ⟨⟨_, rfl⟩, rfl⟩
  · split
    · exact Or.inl ⟨⟨_, rfl⟩, rfl⟩
    · exact Or.inr ⟨rfl, rfl⟩

/-- Lemma: `stop` either raises (leaving the flags untouched) or returns normally
having cleared `started` and set `stopped`. -/
theorem stop_shape (w : World) (flags : Flags) (file : Option ConfigData) :
    ((∃ e, (stop w flags file).result = .error e) ∧
      (stop w flags file).flags = flags) ∨
    ((stop w flags file).result = .ok () ∧
      (stop w flags file).flags
        = { flags with started := false, stopped := true }) := by
  unfold stop
  split
  · exact Or.inl ⟨⟨_, rfl⟩, rfl⟩
  · exact Or.inr ⟨rfl, rfl⟩

/-- Lemma: `install_service` never touches the `started` / `stopped` flags. -/
theorem install_service_started_stopped (w : World) (cfg : Config)
    (flags : Flags) (file : Option ConfigData) :
    ((install_service w cfg flags file).flags).started = flags.started ∧
    ((install_service w cfg flags file).flags).stopped = flags.stopped := by
  unfold install_service
  repeat' split
  all_goals exact ⟨rfl, rfl⟩

/-- Dispatching any single event preserves started/stopped exclusivity. -/
theorem react_preserves_exactlyOne (w : World) (cfg : Config) (e : Event)
    (s : Sys) (h : exactlyOne s.flags) : exactlyOne (react w cfg e s).flags := by
  cases e with
  | install =>
      have hi := install_service_started_stopped w cfg s.flags s.file
      simp only [react]
      unfold exactlyOne at h ⊢
      rw [hi.1, hi.2]
      exact h
  | start =>
      rcases restart_shape w cfg s.flags s.file with ⟨_, hf⟩ | ⟨_, hf⟩ <;>
        simp_all [react, start, exactlyOne]
  | configChanged =>
      rcases restart_shape w cfg s.flags s.file with ⟨_, hf⟩ | ⟨_, hf⟩ <;>
        simp_all [react, config_changed, exactlyOne]
  | stop =>
      rcases stop_shape w s.flags s.file with ⟨_, hf⟩ | ⟨_, hf⟩ <;>
        simp_all [react, stop, exactlyOne]
  | lxdInstalled => simpa [react] using h

/-- Running any event sequence preserves started/stopped exclusivity. -/
theorem runSeq_preserves_exactlyOne (steps : List (Event × World × Config))
    (s : Sys) (h : exactlyOne s.flags) : exactlyOne (runSeq steps s).flags := by
  induction steps generalizing s with
  | nil => simpa [runSeq] using h
  | cons step rest ih =>
      simp only [runSeq, List.foldl_cons] at ih ⊢
      exact ih _ (react_preserves_exactlyOne _ _ _ _ h)

/-- C7:  A successful `restart()` sets `started` and clears `stopped`, a
successful `stop()` sets `stopped` and clears `started` — in both cases
exactly one of the two flags holds afterwards — and this exclusivity is
preserved by every sequence of lifecycle reactions. -/
theorem C7_flag_exclusivity :
    (∀ (w : World) (cfg : Config) (flags : Flags) (file : Option ConfigData),
        (restart w cfg flags file).result = .ok () →
        (restart w cfg flags file).flags
            = { flags with started := true, stopped := false } ∧
        exactlyOne (restart w cfg flags file).flags) ∧
    (∀ (w : World) (flags : Flags) (file : Option ConfigData),
        (stop w flags file).result = .ok () →
        (stop w flags file).flags
            = { flags with started := false, stopped := true } ∧
        exactlyOne (stop w flags file).flags) ∧
    (∀ (steps : List (Event × World × Config)) (s : Sys),
        exactlyOne s.flags → exactlyOne (runSeq steps s).flags) := by
  refine ⟨fun w cfg flags file h => ?_, fun w flags file h => ?_,
    runSeq_preserves_exactlyOne⟩
  · rcases restart_shape w cfg flags file with ⟨⟨e, he⟩, _⟩ | ⟨_, hf⟩
    · rw [he] at h; cases h
    · exact ⟨hf, by simp [hf, exactlyOne]⟩
  · rcases stop_shape w flags file with ⟨⟨e, he⟩, _⟩ | ⟨_, hf⟩
    · rw [he] at h; cases h
    · exact ⟨hf, by simp [hf, exactlyOne]⟩

/-- Witness for C7 at a concrete world and flag states. -/
theorem C7_flag_exclusivity_witness :
    ((restart wAllOk ⟨8047, 8047, "info"⟩ ⟨true, false, true⟩ none).flags
        = ⟨true, true, false⟩ ∧
      exactlyOne (restart wAllOk ⟨8047, 8047, "info"⟩ ⟨true, false, true⟩ none).flags) ∧
    ((stop wAllOk ⟨true, true, false⟩ none).flags = ⟨true, false, true⟩ ∧
      exactlyOne (stop wAllOk ⟨true, true, false⟩ none).flags) ∧
    exactlyOne (runSeq [(Event.stop, wAllOk, ⟨8047, 8047, "info"⟩)]
        ⟨⟨true, true, false⟩, none, false⟩).flags :=
  ⟨C7_flag_exclusivity.1 wAllOk ⟨8047, 8047, "info"⟩ ⟨true, false, true⟩ none
      (by decide),
   C7_flag_exclusivity.2.1 wAllOk ⟨true, true, false⟩ none (by decide),
   C7_flag_exclusivity.2.2 [(Event.stop, wAllOk, ⟨8047, 8047, "info"⟩)]
      ⟨⟨true, true, false⟩, none, false⟩ (by decide)⟩

/-- C8:  The start and config-changed reactions are both exactly one
invocation of `restart()`, and a successful `restart()` performs, in
order: the port transition, the config write, the service-manager restart
command, and the flag flip to started. -/
theorem C8_start_config_changed_refinement (w : World) (cfg : Config)
    (flags : Flags) (file : Option ConfigData) :
    start w cfg flags file = restart w cfg flags file ∧
    config_changed w cfg flags file = restart w cfg flags file ∧
    ((restart w cfg flags file).result = .ok () →
      ∃ d, (restart w cfg flags file).trace
            = portOps cfg ++ [Action.writeConfig d] ++ [Action.run restartCmd] ∧
          (restart w cfg flags file).file = some d ∧
          (restart w cfg flags file).flags
            = { flags with started := true, stopped := false }) := by
  refine ⟨rfl, rfl, fun h => ?_⟩
  obtain ⟨d, hb, he⟩ := restart_ok_shape w cfg flags file h
  exact ⟨d, by rw [he], by rw [he], by rw [he]⟩

/-- Witness for C8 at a concrete world. -/
theorem C8_start_config_changed_refinement_witness :
    start wAllOk ⟨8047, 443, "info"⟩ ⟨true, false, true⟩ none
        = restart wAllOk ⟨8047, 443, "info"⟩ ⟨true, false, true⟩ none ∧
    config_changed wAllOk ⟨8047, 443, "info"⟩ ⟨true, false, true⟩ none
        = restart wAllOk ⟨8047, 443, "info"⟩ ⟨true, false, true⟩ none ∧
    ∃ d, (restart wAllOk ⟨8047, 443, "info"⟩ ⟨true, false, true⟩ none).trace
          = portOps ⟨8047, 443, "info"⟩
            ++ [Action.writeConfig d] ++ [Action.run restartCmd] ∧
        (restart wAllOk ⟨8047, 443, "info"⟩ ⟨true, false, true⟩ none).file = some d ∧
        (restart wAllOk ⟨8047, 443, "info"⟩ ⟨true, false, true⟩ none).flags
          = { (⟨true, false, true⟩ : Flags) with started := true, stopped := false } :=
  ⟨(C8_start_config_changed_refinement wAllOk ⟨8047, 443, "info"⟩
      ⟨true, false, true⟩ none).1,
   (C8_start_config_changed_refinement wAllOk ⟨8047, 443, "info"⟩
      ⟨true, false, true⟩ none).2.1,
   (C8_start_config_changed_refinement wAllOk ⟨8047, 443, "info"⟩
      ⟨true, false, true⟩ none).2.2 (by decide)⟩

/-- C9:  When `build_config()` fails inside `restart()`, the port
transition has already happened (previous closed when changed, current
opened), no service-manager restart command is issued, and the flags are
unchanged. -/
theorem C9_restart_config_failure (w : World) (cfg : Config) (flags : Flags)
    (file : Option ConfigData) (e : PyErr)
    (h : (build_config w cfg file).1 = .error e) :
    (restart w cfg flags file).result = .error e ∧
    (restart w cfg flags file).trace
      = (if cfg.prevPort ≠ cfg.port then [Action.closePort cfg.prevPort] else [])
        ++ [Action.openPort cfg.port] ∧
    Action.run restartCmd ∉ (restart w cfg flags file).trace ∧
    (restart w cfg flags file).flags = flags ∧
    (restart w cfg flags file).file = file := by
  rw [restart_eq_of_error w cfg flags file e
    (build_config_error_shape w cfg file e h)]
  refine ⟨rfl, rfl, ?_, rfl, rfl⟩
  by_cases hp : cfg.prevPort ≠ cfg.port <;> simp [portOps, hp]

/-- Witness for C9: missing addresses with a changed port. -/
theorem C9_restart_config_failure_witness :
    (restart wAllFail ⟨8047, 443, "info"⟩ ⟨true, true, false⟩ (some d0)).result
      = .error (.valueError "could not find API addresses") ∧
    (restart wAllFail ⟨8047, 443, "info"⟩ ⟨true, true, false⟩ (some d0)).trace
      = (if (443 : Int) ≠ 8047 then [Action.closePort 443] else [])
        ++ [Action.openPort 8047] ∧
    Action.run restartCmd
      ∉ (restart wAllFail ⟨8047, 443, "info"⟩ ⟨true, true, false⟩ (some d0)).trace ∧
    (restart wAllFail ⟨8047, 443, "info"⟩ ⟨true, true, false⟩ (some d0)).flags
      = ⟨true, true, false⟩ ∧
    (restart wAllFail ⟨8047, 443, "info"⟩ ⟨true, true, false⟩ (some d0)).file
      = some d0 :=
  C9_restart_config_failure wAllFail ⟨8047, 443, "info"⟩ ⟨true, true, false⟩
    (some d0) (.valueError "could not find API addresses") (by decide)

/-- With the bridge probe succeeding, `setup_lxd` skips the init command
and proceeds directly to the image phase. -/
theorem setup_lxd_eq_net_ok (w : World)
    (hAdd : callE w "adduser" ["ubuntu", "lxd"] = .ok ())
    (hn : callE w LXC ["network", "show", "jujushellbr0"] = .ok ()) :
    setup_lxd w
      = imagePhase w [Action.run ["adduser", "ubuntu", "lxd"], Action.run netProbeCmd] := by
  unfold setup_lxd imagePhase
  rw [hAdd, hn]
  rfl

/-- With the bridge probe failing and the preseeded init failing too, the
init failure propagates out of `setup_lxd`. -/
theorem setup_lxd_eq_net_fail_init_fail (w : World)
    (hAdd : callE w "adduser" ["ubuntu", "lxd"] = .ok ()) (e e2 : PyErr)
    (hn : callE w LXC ["network", "show", "jujushellbr0"] = .error e)
    (hi : callE w LXD_INIT_COMMAND [] = .error e2) :
    setup_lxd w
      = (.error e2,
         [Action.run ["adduser", "ubuntu", "lxd"], Action.run netProbeCmd,
          Action.sleep 10, Action.run [LXD_INIT_COMMAND]]) := by
  unfold setup_lxd
  rw [hAdd, hn, hi]
  rfl

/-- With the bridge probe failing and the preseeded init succeeding,
`setup_lxd` continues into the image phase. -/
theorem setup_lxd_eq_net_fail_init_ok (w : World)
    (hAdd : callE w "adduser" ["ubuntu", "lxd"] = .ok ()) (e : PyErr)
    (hn : callE w LXC ["network", "show", "jujushellbr0"] = .error e)
    (hi : callE w LXD_INIT_COMMAND [] = .ok ()) :
    setup_lxd w
      = imagePhase w
          [Action.run ["adduser", "ubuntu", "lxd"], Action.run netProbeCmd,
           Action.sleep 10, Action.run [LXD_INIT_COMMAND]] := by
  unfold setup_lxd imagePhase
  rw [hAdd, hn, hi]
  rfl

/-- The init command never appears in the image phase's own actions. -/
theorem imagePhase_run_init_iff (w : World) (t : List Action) :
    Action.run [LXD_INIT_COMMAND] ∈ (imagePhase w t).2
      ↔ Action.run [LXD_INIT_COMMAND] ∈ t := by
  have h1 : Action.run [LXD_INIT_COMMAND] ≠ Action.run imgProbeCmd := by decide
  have h2 : Action.run [LXD_INIT_COMMAND] ≠ Action.fetchResource "termserver" := by
    decide
  have h3 : Action.run [LXD_INIT_COMMAND] ≠ Action.run imgImportCmd := by decide
  unfold imagePhase
  cases callE w LXC ["image", "show", "termserver"] with
  | error e =>
      cases w.resources "termserver" <;>
        simp [List.mem_append, h1, h2, h3]
  | ok v => simp [List.mem_append, h1]

/-- The image probe is always executed by the image phase. -/
theorem imagePhase_probe_mem (w : World) (t : List Action) :
    Action.run imgProbeCmd ∈ (imagePhase w t).2 := by
  unfold imagePhase
  cases callE w LXC ["image", "show", "termserver"] with
  | error e => cases w.resources "termserver" <;> simp [List.mem_append]
  | ok v => simp [List.mem_append]

/-- The resource fetch happens in the image phase exactly when the image
probe raises. -/
theorem imagePhase_fetch_iff (w : World) (t : List Action)
    (hf : Action.fetchResource "termserver" ∉ t) :
    Action.fetchResource "termserver" ∈ (imagePhase w t).2
      ↔ ∃ e, callE w LXC ["image", "show", "termserver"] = .error e := by
  have h1 : Action.fetchResource "termserver" ≠ Action.run imgProbeCmd := by decide
  have h2 : Action.fetchResource "termserver" ≠ Action.run imgImportCmd := by decide
  unfold imagePhase
  cases hp : callE w LXC ["image", "show", "termserver"] with
  | error e =>
      cases w.resources "termserver" <;>
        simp [List.mem_append, h1, h2, hf]
  | ok v => simp [List.mem_append, h1, hf]

/-- The import command is invoked in the image phase exactly when the image
probe raises and the resource is available. -/
theorem imagePhase_import_iff (w : World) (t : List Action)
    (hi : Action.run imgImportCmd ∉ t) :
    Action.run imgImportCmd ∈ (imagePhase w t).2
      ↔ ((∃ e, callE w LXC ["image", "show", "termserver"] = .error e) ∧
         ∃ p, w.resources "termserver" = some p) := by
  have h1 : Action.run imgImportCmd ≠ Action.run imgProbeCmd := by decide
  have h2 : Action.run imgImportCmd ≠ Action.fetchResource "termserver" := by decide
  unfold imagePhase
  cases hp : callE w LXC ["image", "show", "termserver"] with
  | error e =>
      cases hr : w.resources "termserver" with
      | none => simp [List.mem_append, h1, h2, hi]
      | some p => simp [List.mem_append, h1, h2, hi]
  | ok v => simp [List.mem_append, h1, hi]

/-- When the image probe succeeds the image phase does nothing further. -/
theorem imagePhase_ok (w : World) (t : List Action)
    (h : callE w LXC ["image", "show", "termserver"] = .ok ()) :
    imagePhase w t = (.ok (), t ++ [Action.run imgProbeCmd]) := by
  unfold imagePhase
  rw [h]

/-- Once past `adduser` and the network phase, `setup_lxd` is the image
phase over a trace containing neither a fetch nor an import. -/
theorem setup_lxd_reaches_image (w : World)
    (hAdd : callE w "adduser" ["ubuntu", "lxd"] = .ok ())
    (hNet : callE w LXC ["network", "show", "jujushellbr0"] = .ok () ∨
            callE w LXD_INIT_COMMAND [] = .ok ()) :
    ∃ t, setup_lxd w = imagePhase w t ∧
      Action.fetchResource "termserver" ∉ t ∧
      Action.run imgImportCmd ∉ t := by
  cases hn : callE w LXC ["network", "show", "jujushellbr0"] with
  | ok v => exact ⟨_, setup_lxd_eq_net_ok w hAdd hn, by decide, by decide⟩
  | error e0 =>
      rcases hNet with hok | hi
      · rw [hn] at hok; cases hok
      · exact ⟨_, setup_lxd_eq_net_fail_init_ok w hAdd e0 hn hi, by decide, by decide⟩

/-- C5:  Under the bootstrap, the preseeded bridge-init command runs
exactly when the `network show` probe raises (the probe failure being
caught locally: with a successful init the run continues to the image
probe), and once the one-time guard flag is set the bootstrap body never
runs again on further occurrences of the trigger. -/
theorem C5_bootstrap_once_and_bridge_init (w : World) (cfg : Config)
    (hAdd : callE w "adduser" ["ubuntu", "lxd"] = .ok ()) :
    (Action.run [LXD_INIT_COMMAND] ∈ (setup_lxd w).2
      ↔ ∃ e, callE w LXC ["network", "show", "jujushellbr0"] = .error e) ∧
    (∀ e, callE w LXC ["network", "show", "jujushellbr0"] = .error e →
      callE w LXD_INIT_COMMAND [] = .ok () →
      Action.run imgProbeCmd ∈ (setup_lxd w).2) ∧
    setup_lxd_once w true = ((.ok (), []), true) ∧
    (∀ s : Sys, s.lxdDone = true → react w cfg Event.lxdInstalled s = s) := by
  refine ⟨?_, fun e hn hi => ?_, rfl, fun s hs => ?_⟩
  · cases hn : callE w LXC ["network", "show", "jujushellbr0"] with
    | ok v =>
        rw [setup_lxd_eq_net_ok w hAdd hn, imagePhase_run_init_iff]
        constructor
        · intro hmem; exact absurd hmem (by decide)
        · rintro ⟨e, he⟩; cases he
    | error e0 =>
        cases hi : callE w LXD_INIT_COMMAND [] with
        | error e2 =>
            rw [setup_lxd_eq_net_fail_init_fail w hAdd e0 e2 hn hi]
            exact iff_of_true (by simp) ⟨e0, rfl⟩
        | ok v =>
            rw [setup_lxd_eq_net_fail_init_ok w hAdd e0 hn hi,
              imagePhase_run_init_iff]
            exact iff_of_true (by simp) ⟨e0, rfl⟩
  · rw [setup_lxd_eq_net_fail_init_ok w hAdd e hn hi]
    exact imagePhase_probe_mem w _
  · rcases s with ⟨f, fl, g⟩
    simp only at hs
    subst hs
    rfl

/-- A world in which the bridge probe fails (the lxc binary is missing)
but every other command succeeds, and resources are available. -/
def wNetFail : World :=
  { exec := fun cmd =>
      if cmd = netProbeCmd then .launchFailure "no such file" else .exited 0 "" "",
    apiAddrs := none,
    cacert := none,
    resources := fun _ => some "/tmp/res" }

/-- Witness for C5: with the bridge probe failing, the init command runs
and the probe failure is not propagated. -/
theorem C5_bootstrap_once_and_bridge_init_witness :
    (Action.run [LXD_INIT_COMMAND] ∈ (setup_lxd wNetFail).2
      ↔ ∃ e, callE wNetFail LXC ["network", "show", "jujushellbr0"] = .error e) ∧
    (∀ e, callE wNetFail LXC ["network", "show", "jujushellbr0"] = .error e →
      callE wNetFail LXD_INIT_COMMAND [] = .ok () →
      Action.run imgProbeCmd ∈ (setup_lxd wNetFail).2) ∧
    setup_lxd_once wNetFail true = ((.ok (), []), true) ∧
    (∀ s : Sys, s.lxdDone = true →
      react wNetFail ⟨8047, 8047, "info"⟩ Event.lxdInstalled s = s) :=
  C5_bootstrap_once_and_bridge_init wNetFail ⟨8047, 8047, "info"⟩ (by decide)

/-- A world in which the image probe fails and the image resource is
unavailable; everything else succeeds. -/
def wImgMissing : World :=
  { exec := fun cmd =>
      if cmd = imgProbeCmd then .exited 1 "" "" else .exited 0 "" "",
    apiAddrs := none,
    cacert := none,
    resources := fun _ => none }

/-- C6 counterexample:  In `wImgMissing` the `image show` probe fails,
yet the image-import command is never executed, because the resource fetch
raises first: the claimed "import executes exactly when the probe fails"
is false in the probe-fails direction. -/
theorem C6_counterexample_import_skipped :
    callE wImgMissing "adduser" ["ubuntu", "lxd"] = .ok () ∧
    callE wImgMissing LXC ["network", "show", "jujushellbr0"] = .ok () ∧
    callE wImgMissing LXC ["image", "show", "termserver"]
      = .error (.commandFailed (cmdlineOf imgProbeCmd) 1 ("" ++ "")) ∧
    Action.run imgImportCmd ∉ (setup_lxd wImgMissing).2 ∧
    (setup_lxd wImgMissing).1 = .error (.resourceNotFound "termserver") :=
  ⟨by decide, by decide, by decide, by decide, by decide⟩

/-- C6 amended:  Once `setup_lxd` reaches the image phase, the
resource fetch executes exactly when the `image show` probe fails, the
image-import command executes exactly when the probe fails and the
resource fetch succeeds, and when the probe succeeds both are skipped. -/
theorem C6_image_import_amended (w : World)
    (hAdd : callE w "adduser" ["ubuntu", "lxd"] = .ok ())
    (hNet : callE w LXC ["network", "show", "jujushellbr0"] = .ok () ∨
            callE w LXD_INIT_COMMAND [] = .ok ()) :
    (Action.fetchResource "termserver" ∈ (setup_lxd w).2
      ↔ ∃ e, callE w LXC ["image", "show", "termserver"] = .error e) ∧
    (Action.run imgImportCmd ∈ (setup_lxd w).2
      ↔ ((∃ e, callE w LXC ["image", "show", "termserver"] = .error e) ∧
         ∃ p, w.resources "termserver" = some p)) ∧
    (callE w LXC ["image", "show", "termserver"] = .ok () →
      Action.fetchResource "termserver" ∉ (setup_lxd w).2 ∧
      Action.run imgImportCmd ∉ (setup_lxd w).2) := by
  obtain ⟨t, hst, hf, hi⟩ := setup_lxd_reaches_image w hAdd hNet
  rw [hst]
  refine ⟨imagePhase_fetch_iff w t hf, imagePhase_import_iff w t hi, fun h => ?_⟩
  rw [imagePhase_ok w t h]
  have h1 : Action.fetchResource "termserver" ≠ Action.run imgProbeCmd := by decide
  have h2 : Action.run imgImportCmd ≠ Action.run imgProbeCmd := by decide
  constructor <;> simp [List.mem_append, h1, h2, hf, hi]

/-- A world in which the image probe fails but the resource is available,
so the import runs; everything else succeeds. -/
def wImgFetch : World :=
  { exec := fun cmd =>
      if cmd = imgProbeCmd then .exited 1 "" "" else .exited 0 "" "",
    apiAddrs := none,
    cacert := none,
    resources := fun _ => some "/tmp/termserver.tar.gz" }

/-- Witness for the amended C6 at a concrete world. -/
theorem C6_image_import_amended_witness :
    (Action.fetchResource "termserver" ∈ (setup_lxd wImgFetch).2
      ↔ ∃ e, callE wImgFetch LXC ["image", "show", "termserver"] = .error e) ∧
    (Action.run imgImportCmd ∈ (setup_lxd wImgFetch).2
      ↔ ((∃ e, callE wImgFetch LXC ["image", "show", "termserver"] = .error e) ∧
         ∃ p, wImgFetch.resources "termserver" = some p)) ∧
    (callE wImgFetch LXC ["image", "show", "termserver"] = .ok () →
      Action.fetchResource "termserver" ∉ (setup_lxd wImgFetch).2 ∧
      Action.run imgImportCmd ∉ (setup_lxd wImgFetch).2) :=
  C6_image_import_amended wImgFetch (by decide) (Or.inl (by decide))

/-- C10:  When the image already exists under the fixed alias (the
probe succeeds), `setup_lxd` completes successfully without ever fetching
the image resource, even when the resource provider cannot supply it. -/
theorem C10_image_present_resource_unavailable (w : World)
    (hAdd : callE w "adduser" ["ubuntu", "lxd"] = .ok ())
    (hNet : callE w LXC ["network", "show", "jujushellbr0"] = .ok () ∨
            callE w LXD_INIT_COMMAND [] = .ok ())
    (hImg : callE w LXC ["image", "show", "termserver"] = .ok ())
    (_hRes : w.resources "termserver" = none) :
    (setup_lxd w).1 = .ok () ∧
    Action.fetchResource "termserver" ∉ (setup_lxd w).2 := by
  obtain ⟨t, hst, hf, _⟩ := setup_lxd_reaches_image w hAdd hNet
  rw [hst, imagePhase_ok w t hImg]
  have h1 : Action.fetchResource "termserver" ≠ Action.run imgProbeCmd := by decide
  exact ⟨rfl, by simp [List.mem_append, h1, hf]⟩

/-- A world in which every command succeeds but no resource is
available. -/
def wImgPresent : World :=
  { exec := fun _ => .exited 0 "" "",
    apiAddrs := none,
    cacert := none,
    resources := fun _ => none }

/-- Witness for C10 at a concrete world. -/
theorem C10_image_present_resource_unavailable_witness :
    (setup_lxd wImgPresent).1 = .ok () ∧
    Action.fetchResource "termserver" ∉ (setup_lxd wImgPresent).2 :=
  C10_image_present_resource_unavailable wImgPresent (by decide)
    (Or.inl (by decide)) (by decide) rfl

end Jujushell
